import Mathlib

/-!
Shallow embedding of the houseofreign subscription service (src/server.js)
and the two frontend countdown-timer variants (src/unnamed/part_000 and the
script embedded after server.js).

The SQLite `subscribers` table is a list of rows; `this.changes` of an
UPDATE is the number of rows matched by the WHERE clause (SQLite counts a
row as changed even when the assigned value equals the stored value).
External libraries are oracles passed as parameters:
`iE` models `validator.isEmail`, `pp` models
`parsePhoneNumberFromString(raw, defaultCountry).isValid() ? .number : null`,
and `smsOk` models whether `client.messages.create` succeeds or throws.
-/

namespace HoR

/-- A row of the `subscribers` table.  `email` is always bound as a string
by the insert paths (the phone-only path passes `''`), `phone` and
`phone_e164` may be NULL (`none`). -/
structure Row where
  id : Nat
  email : String
  phone : Option String
  phoneE164 : Option String
  optedOut : Bool
  isActive : Bool
deriving DecidableEq, Repr

abbrev DB := List Row

/-- The JSON body of a subscribe request; `none` models an absent field. -/
structure SubscribeRequest where
  email : Option String
  phone : Option String
deriving DecidableEq, Repr

/-- An HTTP response: an express `res.status(s).json({success, message, subscriberId?})`,
a TwiML `res.type(text/xml).send(...)`, or a bare `res.status(s).end()`. -/
inductive Response where
  | json (status : Nat) (success : Bool) (message : String) (subscriberId : Option Nat)
  | xml (message : String)
  | empty (status : Nat)
deriving DecidableEq, Repr

/-- JS truthiness of an optional string field: absent and `''` are falsy. -/
def jsTruthy (s : Option String) : Bool :=
  match s with
  | none => false
  | some s => s != ""

/-- ASCII whitespace, covering what JS String.prototype.trim removes on the
ASCII inputs this development works with. -/
def isWsChar (c : Char) : Bool :=
  c = ' ' || c = '\t' || c = '\n' || c = '\r'

/-- JS `String.prototype.trim` (ASCII range). -/
def jsTrim (s : String) : String :=
  String.mk (((s.data.dropWhile isWsChar).reverse.dropWhile isWsChar).reverse)

/-- ASCII upper-casing of one character. -/
def upperChar (c : Char) : Char :=
  if c.toNat ≥ 97 && c.toNat ≤ 122 then Char.ofNat (c.toNat - 32) else c

/-- JS `String.prototype.toUpperCase` (ASCII range). -/
def jsToUpper (s : String) : String :=
  String.mk (s.data.map upperChar)

/-- `validateEmail` from server.js: `validator.isEmail(email) && email.length <= 254`. -/
def validateEmail (iE : String → Bool) (email : String) : Bool :=
  iE email && email.length ≤ 254

/-- `toE164` from server.js: `if (!raw) return null; const p = parse(raw); return p?.isValid() ? p.number : null`. -/
def toE164 (pp : String → Option String) (raw : String) : Option String :=
  if raw = "" then none else pp raw

/-- The phone-normalization stage of POST /api/subscribe (lines 120-130):
`let phoneE164 = null; if (phone && String(phone).trim()) { phoneE164 = toE164(...); if (!phoneE164) return 400 }`.
Result `none` means the 400 rejection; `some pe` is the value of `phoneE164` after the stage. -/
def normalizePhone (pp : String → Option String) (phone : Option String) :
    Option (Option String) :=
  if jsTruthy phone && jsTrim (phone.getD "") != "" then
    match toE164 pp (jsTrim (phone.getD "")) with
    | none => none
    | some pe => some (some pe)
  else some none

/-- The duplicate pre-check `SELECT id FROM subscribers WHERE email = ?`:
true iff some row (active or not) carries this email. -/
def emailExists (db : DB) (e : String) : Bool :=
  db.any (fun r => r.email == e)

/-- Violation of `UNIQUE(email, phone)` for an insert of `(e, p)`.  SQLite
treats NULL as distinct in unique constraints, so a NULL phone never
conflicts; the inserted email is always a string. -/
def pairConflict (db : DB) (e : String) (p : Option String) : Bool :=
  db.any (fun r => r.email == e &&
    match r.phone, p with
    | some a, some b => a == b
    | _, _ => false)

/-- `AUTOINCREMENT` id for the next insert (rows are never deleted). -/
def newId (db : DB) : Nat :=
  db.foldr (fun r m => max r.id m) 0 + 1

/-- The success message of a subscribe, parameterized by the contact method echo. -/
def successMessage (method : String) : String :=
  "Successfully subscribed! You\x27ll receive updates about our upcoming drop via " ++ method ++ "."

/-- Outcome of one subscribe request: the table afterwards, the outbound
SMS deliveries that happened, and the HTTP response. -/
structure SubscribeResult where
  db : DB
  sent : List String
  resp : Response
deriving DecidableEq, Repr

/-- `insertSubscriber` (server.js lines 158-203): run the INSERT; on a
constraint violation answer 500; otherwise attempt the confirmation SMS
when `phone_e164` is set, swallowing a send failure, and answer 200 with
`this.lastID`. -/
def insertSubscriber (e : String) (p : Option String) (pe : Option String)
    (smsOk : Bool) (db : DB) : SubscribeResult :=
  if pairConflict db e p then
    ⟨db, [], .json 500 false "Failed to subscribe. Please try again." none⟩
  else
    let i := newId db
    let db' := db ++ [⟨i, e, p, pe, false, true⟩]
    let sent : List String :=
      match pe with
      | some num => if smsOk then [num] else []
      | none => []
    let contactMethod := if e != "" then "email" else "SMS"
    ⟨db', sent, .json 200 true (successMessage contactMethod) (some i)⟩

/-- POST /api/subscribe (server.js lines 101-211). -/
def subscribe (iE : String → Bool) (pp : String → Option String) (smsOk : Bool)
    (db : DB) (req : SubscribeRequest) : SubscribeResult :=
  if !jsTruthy req.email && !jsTruthy req.phone then
    ⟨db, [], .json 400 false "Either email address or phone number is required" none⟩
  else if jsTruthy req.email && !validateEmail iE (req.email.getD "") then
    ⟨db, [], .json 400 false "Please provide a valid email address" none⟩
  else
    match normalizePhone pp req.phone with
    | none => ⟨db, [], .json 400 false "Invalid phone number format" none⟩
    | some pe =>
      if jsTruthy req.email then
        if emailExists db (req.email.getD "") then
          ⟨db, [], .json 409 false "This email is already subscribed" none⟩
        else
          insertSubscriber (req.email.getD "") req.phone pe smsOk db
      else
        insertSubscriber "" req.phone pe smsOk db

/-- GET /api/subscribers/count: `SELECT COUNT(*) FROM subscribers WHERE is_active = 1`. -/
def subscribersCount (db : DB) : Nat :=
  db.countP (fun r => r.isActive)

/-- The table after `UPDATE subscribers SET is_active = 0 WHERE email = ?`. -/
def unsubUpdate (db : DB) (e : String) : DB :=
  db.map (fun r => if r.email == e then { r with isActive := false } else r)

/-- POST /api/unsubscribe (server.js lines 232-267):
`UPDATE subscribers SET is_active = 0 WHERE email = ?`; 404 iff
`this.changes === 0`, where `changes` counts the rows matched by the
WHERE clause (SQLite counts a matched row even when it was already
inactive). -/
def unsubscribe (iE : String → Bool) (db : DB) (email : Option String) :
    DB × Response :=
  if !jsTruthy email || !validateEmail iE (email.getD "") then
    (db, .json 400 false "Valid email address is required" none)
  else if db.countP (fun r => r.email == email.getD "") = 0 then
    (unsubUpdate db (email.getD ""), .json 404 false "Email not found in our records" none)
  else
    (unsubUpdate db (email.getD ""), .json 200 true "Successfully unsubscribed" none)

/-- Set `opted_out` for every row whose `phone_e164` equals the sender:
`UPDATE subscribers SET opted_out = ? WHERE phone_e164 = ?`. -/
def setOptedOut (db : DB) (f : String) (v : Bool) : DB :=
  db.map (fun r => if r.phoneE164 == some f then { r with optedOut := v } else r)

/-- Body normalization of the inbound webhook: `(req.body.Body || '').trim().toUpperCase()`. -/
def normBody (body : Option String) : String :=
  jsToUpper (jsTrim (body.getD ""))

/-- The normalized bodies recognized as stop-family keywords, compared by
exact equality. -/
def isStopKeyword (b : String) : Prop :=
  b = "STOP" ∨ b = "STOP ALL" ∨ b = "UNSUBSCRIBE" ∨ b = "CANCEL" ∨ b = "END" ∨ b = "QUIT"

instance (b : String) : Decidable (isStopKeyword b) := by
  unfold isStopKeyword; infer_instance

/-- POST /api/sms/inbound (server.js lines 270-322): normalize the body by
trim + toUpperCase, then compare for exact equality against the keyword set. -/
def smsInbound (db : DB) (fromN : Option String) (body : Option String) :
    DB × Response :=
  if !jsTruthy fromN then
    (db, .empty 400)
  else if isStopKeyword (normBody body) then
    (setOptedOut db (fromN.getD "") true,
     .xml "You\x27ve been unsubscribed. No more messages will be sent. Reply START to resubscribe.")
  else if normBody body = "HELP" then
    (db, .xml "House of Reign: For help, reply HELP. To stop, reply STOP. Msg&data rates may apply.")
  else if normBody body = "START" then
    (setOptedOut db (fromN.getD "") false,
     .xml "You\x27re resubscribed. You\x27ll receive updates from House of Reign.")
  else
    (db, .empty 204)

/-- `padZero`: `String(num).padStart(2, '0')` for a non-negative number. -/
def padZero (n : Nat) : String :=
  let s := toString n
  if s.length < 2 then String.mk (List.replicate (2 - s.length) '0') ++ s else s

/-- The four display slots (days, hours, minutes, seconds) as rendered text. -/
structure TimerDisplay where
  days : String
  hours : String
  minutes : String
  seconds : String
deriving DecidableEq, Repr

/-- The day/hour/minute/second breakdown of a non-negative distance in
milliseconds, each slot zero-padded. -/
def computeSlots (distance : Nat) : TimerDisplay :=
  ⟨padZero (distance / 86400000),
   padZero ((distance % 86400000) / 3600000),
   padZero ((distance % 3600000) / 60000),
   padZero ((distance % 60000) / 1000)⟩

/-- `updateTimer` of the src/unnamed/part_000 CountdownTimer: the finished
branch is taken only when `distance < 0` (strict). -/
def updateTimerPart000 (target now : Int) : TimerDisplay :=
  let distance := target - now
  if distance < 0 then ⟨"00", "00", "00", "00"⟩
  else computeSlots distance.toNat

/-- `updateTimer` of the CountdownTimer embedded after server.js: the
finished branch is taken when `distance <= 0`. -/
def updateTimerScript (target now : Int) : TimerDisplay :=
  let distance := target - now
  if distance ≤ 0 then ⟨"00", "00", "00", "00"⟩
  else computeSlots distance.toNat

/-- The DOM elements the timer writes to; `none` models
`document.getElementById` returning null, `some s` an element whose
`textContent` is `s`. -/
structure ElementSlots where
  days : Option String
  hours : Option String
  minutes : Option String
  seconds : Option String
deriving DecidableEq, Repr

/-- `Object.values(this.elements).every(Boolean)`. -/
def allPresent (els : ElementSlots) : Bool :=
  els.days.isSome && els.hours.isSome && els.minutes.isSome && els.seconds.isSome

/-- Assigning `textContent` on each of the four slots; dereferencing a null
element throws a TypeError, modelled as `Except.error`. -/
def writeSlots (els : ElementSlots) (d : TimerDisplay) : Except Unit ElementSlots :=
  match els.days, els.hours, els.minutes, els.seconds with
  | some _, some _, some _, some _ =>
    .ok ⟨some d.days, some d.hours, some d.minutes, some d.seconds⟩
  | _, _, _, _ => .error ()

/-- The part_000 constructor: it calls `this.start()` unconditionally, and
`start` runs `updateTimer` at once, which writes all four slots. -/
def constructPart000 (els : ElementSlots) (target now : Int) :
    Except Unit ElementSlots :=
  writeSlots els (updateTimerPart000 target now)

/-- The constructor of the script variant: it starts (and hence updates the
slots) only `if (Object.values(this.elements).every(Boolean))`; otherwise it
is a no-op leaving the elements untouched. -/
def constructScript (els : ElementSlots) (target now : Int) :
    Except Unit ElementSlots :=
  if allPresent els then writeSlots els (updateTimerScript target now)
  else .ok els

/-- One API operation against the service. -/
inductive Op where
  | sub (smsOk : Bool) (req : SubscribeRequest)
  | unsub (email : Option String)
  | smsIn (fromN : Option String) (body : Option String)
deriving DecidableEq, Repr

/-- The table after one operation. -/
def stepOp (iE : String → Bool) (pp : String → Option String) (db : DB) : Op → DB
  | .sub smsOk req => (subscribe iE pp smsOk db req).db
  | .unsub e => (unsubscribe iE db e).1
  | .smsIn f b => (smsInbound db f b).1

/-- The table after a sequence of API operations. -/
def runOps (iE : String → Bool) (pp : String → Option String) (db : DB) :
    List Op → DB
  | [] => db
  | o :: os => runOps iE pp (stepOp iE pp db o) os

/-! Concrete oracles for witnesses and counterexamples. -/

/-- A validator oracle accepting exactly one address. -/
def emailOK : String → Bool := fun s => s == "a@b.co"

/-- A validator oracle accepting every string. -/
def anyEmail : String → Bool := fun _ => true

/-- A phone-parsing oracle normalizing exactly one US number. -/
def usPhone : String → Option String :=
  fun s => if s == "5551234567" then some "+15551234567" else none

/-- A phone-parsing oracle under which no string is a valid number. -/
def noPhone : String → Option String := fun _ => none

/-- C5: with the target exactly 3661 seconds ahead both updateTimer variants
display 00 days, 01 hours, 01 minutes, 01 seconds; at or after the target
instant both display 00 in all four slots. -/
theorem c5_countdown_slots (target now : Int) :
    (target - now = 3661000 →
      updateTimerPart000 target now = ⟨"00", "01", "01", "01"⟩ ∧
      updateTimerScript target now = ⟨"00", "01", "01", "01"⟩) ∧
    (target ≤ now →
      updateTimerPart000 target now = ⟨"00", "00", "00", "00"⟩ ∧
      updateTimerScript target now = ⟨"00", "00", "00", "00"⟩) := by
  constructor
  · intro h
    constructor
    · simp only [updateTimerPart000, h]
      norm_num
      decide
    · simp only [updateTimerScript, h]
      norm_num
      decide
  · intro h
    have hd : target - now ≤ 0 := by omega
    constructor
    · rcases lt_or_eq_of_le hd with h1 | h1
      · simp only [updateTimerPart000, if_pos h1]
      · simp only [updateTimerPart000, h1]
        norm_num
        decide
    · simp only [updateTimerScript, if_pos hd]

/-- Witness for c5_countdown_slots at distance 3661000 ms and at a passed
target. -/
theorem c5_countdown_slots_witness :
    (updateTimerPart000 3661000 0 = ⟨"00", "01", "01", "01"⟩ ∧
      updateTimerScript 3661000 0 = ⟨"00", "01", "01", "01"⟩) ∧
    (updateTimerPart000 0 5000 = ⟨"00", "00", "00", "00"⟩ ∧
      updateTimerScript 0 5000 = ⟨"00", "00", "00", "00"⟩) :=
  ⟨(c5_countdown_slots 3661000 0).1 (by decide),
   (c5_countdown_slots 0 5000).2 (by decide)⟩

/-- C6 counterexample: the part_000 CountdownTimer constructor starts the
timer unconditionally, so constructing it while the days slot is missing
attempts the slot writes and raises (a TypeError on the null element),
contradicting the claim that construction is then a no-op with no error. -/
theorem c6_counterexample :
    constructPart000 ⟨none, some "00", some "00", some "00"⟩ 3661000 0 =
      .error () := rfl

/-- C6 (amended): the script variant of the constructor (the one that checks
all four slots before starting) is a no-op when some slot is missing: no
update is attempted and no error is raised. -/
theorem c6_missing_slots_noop (els : ElementSlots) (target now : Int)
    (h : allPresent els = false) :
    constructScript els target now = .ok els := by
  simp [constructScript, h]

/-- Witness for c6_missing_slots_noop with the days slot missing. -/
theorem c6_missing_slots_noop_witness :
    constructScript ⟨none, some "00", some "00", some "00"⟩ 3661000 0 =
      .ok ⟨none, some "00", some "00", some "00"⟩ :=
  c6_missing_slots_noop ⟨none, some "00", some "00", some "00"⟩ 3661000 0 (by decide)

/-- C3: for an inbound SMS with a sender number, on the normalized body:
a stop-family keyword (exact equality) marks the sender opted out and
returns the confirmation; HELP returns the static help message with no
state change; START clears opted_out and returns the resubscribe
confirmation; any other body gets an empty 204 acknowledgment and changes
no row. -/
theorem c3_sms_inbound_cases (db : DB) (f : String) (body : Option String)
    (hf : f ≠ "") :
    (isStopKeyword (normBody body) →
      smsInbound db (some f) body = (setOptedOut db f true,
        .xml "You\x27ve been unsubscribed. No more messages will be sent. Reply START to resubscribe.")) ∧
    (normBody body = "HELP" →
      smsInbound db (some f) body = (db,
        .xml "House of Reign: For help, reply HELP. To stop, reply STOP. Msg&data rates may apply.")) ∧
    (normBody body = "START" →
      smsInbound db (some f) body = (setOptedOut db f false,
        .xml "You\x27re resubscribed. You\x27ll receive updates from House of Reign.")) ∧
    (¬isStopKeyword (normBody body) → normBody body ≠ "HELP" → normBody body ≠ "START" →
      smsInbound db (some f) body = (db, .empty 204)) := by
  have hj : jsTruthy (some f) = true := by
    simp [jsTruthy, hf]
  refine ⟨fun hb => ?_, fun hb => ?_, fun hb => ?_, fun h1 h2 h3 => ?_⟩
  · simp [smsInbound, hj, if_pos hb]
  · have hns : ¬isStopKeyword (normBody body) := by
      rw [hb]; decide
    simp only [smsInbound, hj, Bool.not_true, Bool.false_eq_true, if_false, if_neg hns]
    rw [if_pos hb]
  · have hns : ¬isStopKeyword (normBody body) := by
      rw [hb]; decide
    have hnh : ¬normBody body = "HELP" := by rw [hb]; decide
    simp only [smsInbound, hj, Bool.not_true, Bool.false_eq_true, if_false,
      if_neg hns, if_neg hnh]
    rw [if_pos hb]
    rfl
  · simp [smsInbound, hj, if_neg h1, if_neg h2, if_neg h3]

/-- Witness for c3_sms_inbound_cases: a known number replying with a
stop keyword (lower-case, padded), HELP, START, and a body that merely
contains STOP as a substring. -/
theorem c3_sms_inbound_cases_witness :
    (smsInbound [⟨1, "", some "5551234567", some "+15551234567", false, true⟩]
        (some "+15551234567") (some " stop ") =
      (setOptedOut [⟨1, "", some "5551234567", some "+15551234567", false, true⟩] "+15551234567" true,
        .xml "You\x27ve been unsubscribed. No more messages will be sent. Reply START to resubscribe.")) ∧
    (smsInbound [⟨1, "", some "5551234567", some "+15551234567", false, true⟩]
        (some "+15551234567") (some "help") =
      ([⟨1, "", some "5551234567", some "+15551234567", false, true⟩],
        .xml "House of Reign: For help, reply HELP. To stop, reply STOP. Msg&data rates may apply.")) ∧
    (smsInbound [⟨1, "", some "5551234567", some "+15551234567", false, true⟩]
        (some "+15551234567") (some "Start") =
      (setOptedOut [⟨1, "", some "5551234567", some "+15551234567", false, true⟩] "+15551234567" false,
        .xml "You\x27re resubscribed. You\x27ll receive updates from House of Reign.")) ∧
    (smsInbound [⟨1, "", some "5551234567", some "+15551234567", false, true⟩]
        (some "+15551234567") (some "PLEASE STOP") =
      ([⟨1, "", some "5551234567", some "+15551234567", false, true⟩], .empty 204)) :=
  ⟨(c3_sms_inbound_cases _ _ _ (by decide)).1 (by decide),
   (c3_sms_inbound_cases _ _ _ (by decide)).2.1 (by decide),
   (c3_sms_inbound_cases _ _ _ (by decide)).2.2.1 (by decide),
   (c3_sms_inbound_cases _ _ _ (by decide)).2.2.2 (by decide) (by decide) (by decide)⟩

/-- The table and HTTP response of insertSubscriber never depend on
whether the outbound confirmation send succeeds; only the delivery log
does. -/
theorem insertSubscriber_sms_indep (e : String) (p pe : Option String)
    (s₁ s₂ : Bool) (db : DB) :
    (insertSubscriber e p pe s₁ db).db = (insertSubscriber e p pe s₂ db).db ∧
    (insertSubscriber e p pe s₁ db).resp = (insertSubscriber e p pe s₂ db).resp := by
  simp only [insertSubscriber]
  split <;> simp

/-- The table and HTTP response of subscribe never depend on whether the
outbound confirmation send succeeds. -/
theorem subscribe_sms_indep (iE : String → Bool) (pp : String → Option String)
    (s₁ s₂ : Bool) (db : DB) (req : SubscribeRequest) :
    (subscribe iE pp s₁ db req).db = (subscribe iE pp s₂ db req).db ∧
    (subscribe iE pp s₁ db req).resp = (subscribe iE pp s₂ db req).resp := by
  simp only [subscribe]
  split
  · simp
  · split
    · simp
    · split
      · simp
      · split
        · split
          · simp
          · exact insertSubscriber_sms_indep _ _ _ s₁ s₂ db
        · exact insertSubscriber_sms_indep _ _ _ s₁ s₂ db

/-- C8: when a subscribe request reaches a successful insert, a failure of
the outbound SMS confirmation leaves the HTTP outcome unchanged: the
response is the same success response with the same new subscriber id, and
the stored table is the same. -/
theorem c8_sms_failure_same_outcome (iE : String → Bool)
    (pp : String → Option String) (db : DB) (req : SubscribeRequest)
    (m : String) (i : Nat)
    (h : (subscribe iE pp true db req).resp = .json 200 true m (some i)) :
    (subscribe iE pp false db req).resp = .json 200 true m (some i) ∧
    (subscribe iE pp false db req).db = (subscribe iE pp true db req).db := by
  obtain ⟨hdb, hresp⟩ := subscribe_sms_indep iE pp false true db req
  exact ⟨hresp.trans h, hdb⟩

/-- Witness for c8_sms_failure_same_outcome: a phone-only subscribe whose
confirmation send fails still answers the success response with id 1. -/
theorem c8_sms_failure_same_outcome_witness :
    (subscribe anyEmail usPhone false [] ⟨none, some "5551234567"⟩).resp =
      .json 200 true (successMessage "SMS") (some 1) ∧
    (subscribe anyEmail usPhone false [] ⟨none, some "5551234567"⟩).db =
      (subscribe anyEmail usPhone true [] ⟨none, some "5551234567"⟩).db :=
  c8_sms_failure_same_outcome anyEmail usPhone [] ⟨none, some "5551234567"⟩
    (successMessage "SMS") 1 (by decide)

/-- When no row carries an email, no insert of that email can violate
UNIQUE(email, phone). -/
theorem pairConflict_of_no_email (db : DB) (e : String) (p : Option String)
    (h : emailExists db e = false) : pairConflict db e p = false := by
  simp only [emailExists, List.any_eq_false] at h
  simp only [pairConflict, List.any_eq_false]
  intro r hr
  have h1 := h r hr
  simp only [Bool.not_eq_true] at h1 ⊢
  simp [h1]

/-- The duplicate pre-check of POST /api/subscribe ignores is_active: the
c1db row is inactive. -/
def c1db : DB := [⟨1, "a@b.co", none, none, false, false⟩]

/-- C1 counterexample: c1db holds no ACTIVE row with the email, yet the
subscribe request with that email is rejected with 409 and nothing is
inserted — the pre-check matches any row, not only active ones, so the
claim's biconditional fails. -/
theorem c1_counterexample :
    (c1db.all fun r => !(r.email == "a@b.co" && r.isActive)) = true ∧
    (subscribe emailOK usPhone true c1db ⟨some "a@b.co", none⟩).resp =
      .json 409 false "This email is already subscribed" none ∧
    (subscribe emailOK usPhone true c1db ⟨some "a@b.co", none⟩).db = c1db := by
  decide

/-- C1 (amended): for a subscribe request with a present, valid email whose
phone stage passes, the request is rejected with 409 and nothing inserted
iff some row — active or not — already carries that email; otherwise the
row is inserted and the success response returned. -/
theorem c1_subscribe_email_dedupe (iE : String → Bool)
    (pp : String → Option String) (smsOk : Bool) (db : DB)
    (req : SubscribeRequest) (e : String) (pe : Option String)
    (he : req.email = some e) (hne : e ≠ "")
    (hv : validateEmail iE e = true)
    (hp : normalizePhone pp req.phone = some pe) :
    (emailExists db e = true →
      subscribe iE pp smsOk db req =
        ⟨db, [], .json 409 false "This email is already subscribed" none⟩) ∧
    (emailExists db e = false →
      (subscribe iE pp smsOk db req).db =
        db ++ [⟨newId db, e, req.phone, pe, false, true⟩] ∧
      (subscribe iE pp smsOk db req).resp =
        .json 200 true (successMessage "email") (some (newId db))) := by
  obtain ⟨oe, op⟩ := req
  simp only at he hp
  subst he
  have hj : jsTruthy (some e) = true := by simp [jsTruthy, hne]
  have hb : (e != "") = true := by simp [hne]
  constructor
  · intro hex
    simp [subscribe, hj, hv, hp, hex]
  · intro hex
    have hpc : pairConflict db e op = false := pairConflict_of_no_email db e op hex
    simp [subscribe, hj, hv, hp, hex, insertSubscriber, hpc, hb]

/-- Witness for c1_subscribe_email_dedupe on the empty table. -/
theorem c1_subscribe_email_dedupe_witness :
    (subscribe emailOK usPhone true [] ⟨some "a@b.co", none⟩).db =
      [] ++ [⟨newId [], "a@b.co", none, none, false, true⟩] ∧
    (subscribe emailOK usPhone true [] ⟨some "a@b.co", none⟩).resp =
      .json 200 true (successMessage "email") (some (newId [])) :=
  (c1_subscribe_email_dedupe emailOK usPhone true [] ⟨some "a@b.co", none⟩
    "a@b.co" none rfl (by decide) (by decide) (by decide)).2 (by decide)

/-- The UPDATE of unsubscribe changes no row when no row matches. -/
theorem unsubUpdate_id (db : DB) (e : String) (h : ∀ r ∈ db, r.email ≠ e) :
    unsubUpdate db e = db := by
  induction db with
  | nil => rfl
  | cons a t ih =>
    simp only [unsubUpdate, List.map_cons] at *
    rw [if_neg, ih (fun r hr => h r (List.mem_cons_of_mem a hr))]
    simp [h a (List.mem_cons_self a t)]

/-- The UPDATE of unsubscribe does not change which rows match the email. -/
theorem unsubUpdate_countP (db : DB) (e : String) :
    (unsubUpdate db e).countP (fun r => r.email == e) =
      db.countP (fun r => r.email == e) := by
  unfold unsubUpdate
  rw [List.countP_map]
  congr 1
  funext r
  by_cases hc : r.email = e
  · simp [Function.comp, hc]
  · simp [Function.comp, hc]

/-- After the validation guard, the table left by POST /api/unsubscribe is
the UPDATE applied to every row matching the email. -/
theorem unsubscribe_db (iE : String → Bool) (db : DB) (e : String)
    (hne : e ≠ "") (hv : validateEmail iE e = true) :
    (unsubscribe iE db (some e)).1 = unsubUpdate db e := by
  have hguard : (!jsTruthy (some e) || !validateEmail iE ((some e).getD "")) = false := by
    simp [jsTruthy, hne, hv]
  simp only [unsubscribe, Option.getD_some] at *
  rw [hguard, if_neg Bool.false_ne_true]
  split <;> rfl

/-- After the validation guard, the response of POST /api/unsubscribe is 404
iff the UPDATE matched no row. -/
theorem unsubscribe_resp (iE : String → Bool) (db : DB) (e : String)
    (hne : e ≠ "") (hv : validateEmail iE e = true) :
    (unsubscribe iE db (some e)).2 =
      if db.countP (fun r => r.email == e) = 0 then
        .json 404 false "Email not found in our records" none
      else .json 200 true "Successfully unsubscribed" none := by
  have hguard : (!jsTruthy (some e) || !validateEmail iE ((some e).getD "")) = false := by
    simp [jsTruthy, hne, hv]
  simp only [unsubscribe, Option.getD_some] at *
  rw [hguard, if_neg Bool.false_ne_true]
  split <;> rfl

/-- An active row that a second unsubscribe still matches: the UPDATE never
deletes it. -/
def c2db : DB := [⟨1, "a@b.co", none, none, false, true⟩]

/-- C2 counterexample: unsubscribing a subscribed email twice answers
success both times — the second UPDATE still matches the (now inactive) row,
so this.changes is not 0 and no 404 is produced. -/
theorem c2_counterexample :
    (unsubscribe emailOK c2db (some "a@b.co")).2 =
      .json 200 true "Successfully unsubscribed" none ∧
    (unsubscribe emailOK (unsubscribe emailOK c2db (some "a@b.co")).1
        (some "a@b.co")).2 =
      .json 200 true "Successfully unsubscribed" none := by
  decide

/-- C2 (amended): with a valid email, unsubscribing an email carried by no
row answers 404 and changes nothing; unsubscribing an email carried by some
row answers success, and a second unsubscribe answers success again (the
row persists, so the UPDATE matches it again). -/
theorem c2_unsubscribe_twice (iE : String → Bool) (db : DB) (e : String)
    (hne : e ≠ "") (hv : validateEmail iE e = true) :
    ((∀ r ∈ db, r.email ≠ e) →
      unsubscribe iE db (some e) =
        (db, .json 404 false "Email not found in our records" none)) ∧
    ((∃ r ∈ db, r.email = e) →
      (unsubscribe iE db (some e)).2 =
        .json 200 true "Successfully unsubscribed" none ∧
      (unsubscribe iE (unsubscribe iE db (some e)).1 (some e)).2 =
        .json 200 true "Successfully unsubscribed" none) := by
  constructor
  · intro h
    have hcount : db.countP (fun r => r.email == e) = 0 := by
      rw [List.countP_eq_zero]
      intro r hr
      simp [h r hr]
    have h1 := unsubscribe_db iE db e hne hv
    have h2 := unsubscribe_resp iE db e hne hv
    rw [unsubUpdate_id db e h] at h1
    rw [if_pos hcount] at h2
    exact Prod.ext_iff.mpr ⟨h1, h2⟩
  · intro h
    obtain ⟨r0, hr0, he0⟩ := h
    have hcount : db.countP (fun r => r.email == e) ≠ 0 := by
      intro hc
      have := (List.countP_eq_zero.mp hc) r0 hr0
      simp [he0] at this
    have h2 := unsubscribe_resp iE db e hne hv
    rw [if_neg hcount] at h2
    refine ⟨h2, ?_⟩
    have h1 := unsubscribe_db iE db e hne hv
    have hcount2 : ((unsubscribe iE db (some e)).1.countP
        (fun r => r.email == e)) ≠ 0 := by
      rw [h1, unsubUpdate_countP]
      exact hcount
    have h3 := unsubscribe_resp iE (unsubscribe iE db (some e)).1 e hne hv
    rw [if_neg hcount2] at h3
    exact h3

/-- Witness for c2_unsubscribe_twice: a never-subscribed email on the empty
table gets 404; a subscribed email gets success twice. -/
theorem c2_unsubscribe_twice_witness :
    (unsubscribe emailOK [] (some "a@b.co") =
      ([], .json 404 false "Email not found in our records" none)) ∧
    ((unsubscribe emailOK c2db (some "a@b.co")).2 =
        .json 200 true "Successfully unsubscribed" none ∧
      (unsubscribe emailOK (unsubscribe emailOK c2db (some "a@b.co")).1
          (some "a@b.co")).2 =
        .json 200 true "Successfully unsubscribed" none) :=
  ⟨(c2_unsubscribe_twice emailOK [] "a@b.co" (by decide) (by decide)).1 (by simp),
   (c2_unsubscribe_twice emailOK c2db "a@b.co" (by decide) (by decide)).2
     ⟨⟨1, "a@b.co", none, none, false, true⟩, by simp [c2db], rfl⟩⟩

/-- C7 counterexample: the phone value a single space is present and does
not normalize to any valid number (the oracle noPhone validates nothing),
yet the request is not rejected: the whitespace-only phone is silently
skipped by the normalization stage and the row is persisted with a raw
phone and a NULL phone_e164. -/
theorem c7_counterexample :
    noPhone " " = none ∧
    subscribe anyEmail noPhone true [] ⟨none, some " "⟩ =
      ⟨[⟨1, "", some " ", none, false, true⟩], [],
        .json 200 true (successMessage "SMS") (some 1)⟩ := by
  decide

/-- C7 (amended): a present phone value whose trimmed content is non-empty
and does not normalize to a valid E.164 number is rejected with 400 and
nothing is persisted; only a whitespace-only phone is silently treated as
absent by the normalization stage. -/
theorem c7_nonblank_invalid_phone_rejected (iE : String → Bool)
    (pp : String → Option String) (smsOk : Bool) (db : DB)
    (req : SubscribeRequest) (p : String)
    (hp : req.phone = some p) (ht : jsTrim p ≠ "")
    (hpp : pp (jsTrim p) = none)
    (he : jsTruthy req.email = false ∨ validateEmail iE (req.email.getD "") = true) :
    subscribe iE pp smsOk db req =
      ⟨db, [], .json 400 false "Invalid phone number format" none⟩ := by
  obtain ⟨oe, op⟩ := req
  simp only at hp he ⊢
  subst hp
  have hpe : p ≠ "" := by
    intro h
    subst h
    exact ht (by decide)
  have hj : jsTruthy (some p) = true := by simp [jsTruthy, hpe]
  have hnp : normalizePhone pp (some p) = none := by
    simp [normalizePhone, toE164, hj, ht, hpp]
  rcases he with he | he
  · simp [subscribe, hj, he, hnp]
  · simp [subscribe, hj, he, hnp]

/-- Witness for c7_nonblank_invalid_phone_rejected: a non-whitespace phone
that no parse accepts is rejected with 400 on the empty table. -/
theorem c7_nonblank_invalid_phone_rejected_witness :
    subscribe anyEmail noPhone true [] ⟨none, some "123"⟩ =
      ⟨[], [], .json 400 false "Invalid phone number format" none⟩ :=
  c7_nonblank_invalid_phone_rejected anyEmail noPhone true [] ⟨none, some "123"⟩
    "123" rfl (by decide) (by decide) (Or.inl (by decide))

/-- C10: a phone-only subscribe of a fresh normalizable number inserts a row
carrying the empty-string email, and an immediate second phone-only
subscribe of the same number hits the UNIQUE(email, phone) constraint (both
rows carry email '' and the same phone) and is answered with the generic
500, not a 409. -/
theorem c10_phone_only_duplicate (iE : String → Bool)
    (pp : String → Option String) (smsOk : Bool) (db : DB) (p e164 : String)
    (ht : jsTrim p ≠ "") (hpp : pp (jsTrim p) = some e164)
    (hfresh : pairConflict db "" (some p) = false) :
    (subscribe iE pp smsOk db ⟨none, some p⟩).db =
      db ++ [⟨newId db, "", some p, some e164, false, true⟩] ∧
    (subscribe iE pp smsOk db ⟨none, some p⟩).resp =
      .json 200 true (successMessage "SMS") (some (newId db)) ∧
    (subscribe iE pp smsOk (subscribe iE pp smsOk db ⟨none, some p⟩).db
        ⟨none, some p⟩).resp =
      .json 500 false "Failed to subscribe. Please try again." none := by
  have hpe : p ≠ "" := by
    intro h
    subst h
    exact ht (by decide)
  have hj : jsTruthy (some p) = true := by simp [jsTruthy, hpe]
  have hnp : normalizePhone pp (some p) = some (some e164) := by
    simp [normalizePhone, toE164, hj, ht, hpp]
  have hsub1 : subscribe iE pp smsOk db ⟨none, some p⟩ =
      insertSubscriber "" (some p) (some e164) smsOk db := by
    simp [subscribe, jsTruthy, hpe, hnp]
  have hins1 : (insertSubscriber "" (some p) (some e164) smsOk db).db =
      db ++ [⟨newId db, "", some p, some e164, false, true⟩] := by
    simp [insertSubscriber, hfresh]
  have hconf : pairConflict
      (db ++ [⟨newId db, "", some p, some e164, false, true⟩]) "" (some p) = true := by
    simp [pairConflict, List.any_append]
  refine ⟨by rw [hsub1, hins1], ?_, ?_⟩
  · rw [hsub1]
    simp [insertSubscriber, hfresh]
  · rw [hsub1, hins1]
    have hsub2 : subscribe iE pp smsOk
        (db ++ [⟨newId db, "", some p, some e164, false, true⟩]) ⟨none, some p⟩ =
        insertSubscriber "" (some p) (some e164) smsOk
          (db ++ [⟨newId db, "", some p, some e164, false, true⟩]) := by
      simp [subscribe, jsTruthy, hpe, hnp]
    rw [hsub2]
    simp [insertSubscriber, hconf]

/-- Witness for c10_phone_only_duplicate on the empty table. -/
theorem c10_phone_only_duplicate_witness :
    (subscribe anyEmail usPhone true [] ⟨none, some "5551234567"⟩).db =
      [] ++ [⟨newId [], "", some "5551234567", some "+15551234567", false, true⟩] ∧
    (subscribe anyEmail usPhone true [] ⟨none, some "5551234567"⟩).resp =
      .json 200 true (successMessage "SMS") (some (newId [])) ∧
    (subscribe anyEmail usPhone true
        (subscribe anyEmail usPhone true [] ⟨none, some "5551234567"⟩).db
        ⟨none, some "5551234567"⟩).resp =
      .json 500 false "Failed to subscribe. Please try again." none :=
  c10_phone_only_duplicate anyEmail usPhone true [] "5551234567" "+15551234567"
    (by decide) (by decide) (by decide)

/-- The table with the row a first phone-only subscription of 5551234567
leaves behind. -/
def c9db : DB := (subscribe anyEmail usPhone true [] ⟨none, some "5551234567"⟩).db

/-- C9 counterexample: a phone-only request whose phone is present and
normalizable, with no conflicting existing email (the request carries no
email at all), is nonetheless rejected with 500 on c9db, and the active
count does not grow: the UNIQUE(email, phone) pair constraint rejects it. -/
theorem c9_counterexample :
    usPhone (jsTrim "5551234567") = some "+15551234567" ∧
    (subscribe anyEmail usPhone true c9db ⟨none, some "5551234567"⟩).resp =
      .json 500 false "Failed to subscribe. Please try again." none ∧
    subscribersCount (subscribe anyEmail usPhone true c9db
      ⟨none, some "5551234567"⟩).db = subscribersCount c9db := by
  decide

/-- C9 (amended): a request whose present contact methods are well-formed
(valid email with no row already carrying it; phone passing the
normalization stage), with at least one present, and whose stored
(email, phone) pair conflicts with no existing row, succeeds, and the
active-subscriber count afterwards is exactly one more. -/
theorem c9_valid_subscribe_increments_count (iE : String → Bool)
    (pp : String → Option String) (smsOk : Bool) (db : DB)
    (req : SubscribeRequest) (pe : Option String)
    (hone : jsTruthy req.email = true ∨ jsTruthy req.phone = true)
    (hem : jsTruthy req.email = true →
      validateEmail iE (req.email.getD "") = true ∧
      emailExists db (req.email.getD "") = false)
    (hp : normalizePhone pp req.phone = some pe)
    (hpc : pairConflict db
      (if jsTruthy req.email then req.email.getD "" else "") req.phone = false) :
    (subscribe iE pp smsOk db req).resp =
      .json 200 true
        (successMessage (if jsTruthy req.email then "email" else "SMS"))
        (some (newId db)) ∧
    subscribersCount (subscribe iE pp smsOk db req).db =
      subscribersCount db + 1 := by
  obtain ⟨oe, op⟩ := req
  simp only at *
  by_cases hje : jsTruthy oe = true
  · obtain ⟨hv, hex⟩ := hem hje
    rw [if_pos hje] at hpc
    have hne : (oe.getD "" != "") = true := by
      cases oe with
      | none => simp [jsTruthy] at hje
      | some s => simpa [jsTruthy] using hje
    have hsub : subscribe iE pp smsOk db ⟨oe, op⟩ =
        insertSubscriber (oe.getD "") op pe smsOk db := by
      simp [subscribe, hje, hv, hp, hex]
    rw [hsub, if_pos hje]
    constructor
    · simp [insertSubscriber, hpc, hne]
    · simp [insertSubscriber, hpc, subscribersCount, List.countP_append]
  · have hjp : jsTruthy op = true := hone.resolve_left hje
    have hje' : jsTruthy oe = false := by
      simpa using hje
    rw [if_neg hje] at hpc
    have hsub : subscribe iE pp smsOk db ⟨oe, op⟩ =
        insertSubscriber "" op pe smsOk db := by
      simp [subscribe, hje', hjp, hp]
    rw [hsub, if_neg hje]
    constructor
    · simp [insertSubscriber, hpc]
    · simp [insertSubscriber, hpc, subscribersCount, List.countP_append]

/-- Witness for c9_valid_subscribe_increments_count: a first phone-only
subscription on the empty table. -/
theorem c9_valid_subscribe_increments_count_witness :
    (subscribe anyEmail usPhone true [] ⟨none, some "5551234567"⟩).resp =
      .json 200 true (successMessage "SMS") (some (newId [])) ∧
    subscribersCount (subscribe anyEmail usPhone true []
      ⟨none, some "5551234567"⟩).db = subscribersCount [] + 1 :=
  c9_valid_subscribe_increments_count anyEmail usPhone true []
    ⟨none, some "5551234567"⟩ (some "+15551234567")
    (Or.inr (by decide)) (by decide) (by decide) (by decide)

/-- A row present after an insert was already present or carries the
inserted email. -/
theorem insertSubscriber_mem (e : String) (p pe : Option String) (smsOk : Bool)
    (db : DB) (r : Row) (hr : r ∈ (insertSubscriber e p pe smsOk db).db) :
    r ∈ db ∨ r.email = e := by
  simp only [insertSubscriber] at hr
  split at hr
  · exact Or.inl hr
  · simp only [List.mem_append, List.mem_singleton] at hr
    rcases hr with h | h
    · exact Or.inl h
    · right
      rw [h]

/-- A row present after a subscribe was already present, or was inserted by
the phone-only path with the empty-string email, or carries an email the
request validated. -/
theorem subscribe_mem_email (iE : String → Bool) (pp : String → Option String)
    (smsOk : Bool) (db : DB) (req : SubscribeRequest) (r : Row)
    (hr : r ∈ (subscribe iE pp smsOk db req).db) :
    r ∈ db ∨ r.email = "" ∨ validateEmail iE r.email = true := by
  unfold subscribe at hr
  split at hr
  · exact Or.inl hr
  · split at hr
    · exact Or.inl hr
    · split at hr
      · exact Or.inl hr
      · split at hr
        · split at hr
          · exact Or.inl hr
          · rcases insertSubscriber_mem _ _ _ _ _ _ hr with h | h
            · exact Or.inl h
            · right
              right
              rw [h]
              by_contra hv
              simp only [Bool.not_eq_true] at hv
              simp_all
        · rcases insertSubscriber_mem _ _ _ _ _ _ hr with h | h
          · exact Or.inl h
          · right
            left
            rw [h]

/-- Rows of the opted-out UPDATE keep their emails. -/
theorem setOptedOut_mem (db : DB) (f : String) (v : Bool) (r : Row)
    (hr : r ∈ setOptedOut db f v) : ∃ r0 ∈ db, r.email = r0.email := by
  simp only [setOptedOut, List.mem_map] at hr
  obtain ⟨r0, hr0, heq⟩ := hr
  subst heq
  refine ⟨r0, hr0, ?_⟩
  by_cases hc : (r0.phoneE164 == some f) = true <;> simp [hc]

/-- Rows of the table left by an unsubscribe keep the emails of rows that
were already there. -/
theorem unsubscribe_fst_mem (iE : String → Bool) (db : DB) (em : Option String)
    (r : Row) (hr : r ∈ (unsubscribe iE db em).1) :
    ∃ r0 ∈ db, r.email = r0.email := by
  unfold unsubscribe at hr
  split at hr
  · exact ⟨r, hr, rfl⟩
  · have key : ∀ s, r ∈ unsubUpdate db s → ∃ r0 ∈ db, r.email = r0.email := by
      intro s hrs
      simp only [unsubUpdate, List.mem_map] at hrs
      obtain ⟨r0, hr0, heq⟩ := hrs
      subst heq
      refine ⟨r0, hr0, ?_⟩
      by_cases hc : (r0.email == s) = true <;> simp [hc]
    split at hr
    · exact key _ hr
    · exact key _ hr

/-- Rows of the table left by the inbound-SMS webhook keep the emails of
rows that were already there. -/
theorem smsInbound_fst_mem (db : DB) (f b : Option String) (r : Row)
    (hr : r ∈ (smsInbound db f b).1) : ∃ r0 ∈ db, r.email = r0.email := by
  unfold smsInbound at hr
  split at hr
  · exact ⟨r, hr, rfl⟩
  · split at hr
    · exact setOptedOut_mem _ _ _ _ hr
    · split at hr
      · exact ⟨r, hr, rfl⟩
      · split at hr
        · exact setOptedOut_mem _ _ _ _ hr
        · exact ⟨r, hr, rfl⟩

/-- C4 counterexample: a single phone-only subscribe persists a row whose
email field is the empty string — a present value that is not a
syntactically valid email address. -/
theorem c4_counterexample :
    (runOps emailOK usPhone [] [.sub true ⟨none, some "5551234567"⟩]).map
      Row.email = [""] ∧
    validateEmail emailOK "" = false := by
  decide

/-- C4 (amended): across every sequence of API operations from a table
whose emails are all empty or valid, every persisted row's email is either
the empty string (the phone-only insert path) or an email the validator
accepted; no other value is ever stored, but the empty string is. -/
theorem c4_email_valid_or_empty (iE : String → Bool) (pp : String → Option String)
    (ops : List Op) (db : DB)
    (h0 : ∀ r ∈ db, r.email = "" ∨ validateEmail iE r.email = true) :
    ∀ r ∈ runOps iE pp db ops, r.email = "" ∨ validateEmail iE r.email = true := by
  induction ops generalizing db with
  | nil => simpa [runOps] using h0
  | cons o os ih =>
    rw [runOps]
    apply ih
    intro r hr
    cases o with
    | sub smsOk req =>
      rcases subscribe_mem_email iE pp smsOk db req r hr with h | h
      · exact h0 r h
      · exact h
    | unsub em =>
      obtain ⟨r0, hr0, heq⟩ := unsubscribe_fst_mem iE db em r hr
      rw [heq]
      exact h0 r0 hr0
    | smsIn f b =>
      obtain ⟨r0, hr0, heq⟩ := smsInbound_fst_mem db f b r hr
      rw [heq]
      exact h0 r0 hr0

/-- A sequence exercising all three operations. -/
def c4ops : List Op :=
  [.sub true ⟨some "a@b.co", none⟩, .unsub (some "a@b.co"),
   .sub true ⟨none, some "5551234567"⟩, .smsIn (some "+15551234567") (some "STOP")]

/-- Witness for c4_email_valid_or_empty from the empty table. -/
theorem c4_email_valid_or_empty_witness :
    ((runOps emailOK usPhone [] c4ops).all
      (fun r => r.email == "" || validateEmail emailOK r.email)) = true := by
  rw [List.all_eq_true]
  intro r hr
  rcases c4_email_valid_or_empty emailOK usPhone c4ops [] (by simp) r hr with h | h
  · simp [h]
  · simp [h]

end HoR
